import Mathlib

/-!
Verification of the Aave V2 credit-scoring pipeline.

Shallow embedding of the score-normalization and feature-engineering code in
`src/main.py`, `src/features.py` and `src/model.py`. Numpy/pandas float arrays
are modelled over `ℚ`; the IEEE value NaN is modelled as `none : Option ℚ`.
The only nonfinite value the pipeline can produce is `0/0 = NaN` in the score
rescaling (the numerator `r - min` vanishes exactly when the denominator
`max - min` does), so modelling every division by zero as `none` is faithful.
`np.clip` propagates NaN, and any IEEE comparison with NaN is false.
-/

/-- `arr.min()` of the nonempty numpy array `a :: l`, written as a fold. -/
def minL (a : ℚ) (l : List ℚ) : ℚ := l.foldl min a

/-- `arr.max()` of the nonempty numpy array `a :: l`, written as a fold. -/
def maxL (a : ℚ) (l : List ℚ) : ℚ := l.foldl max a

/-- Numpy elementwise division: division by zero in the pipeline only happens
as `0/0`, which numpy evaluates to NaN (modelled `none`). -/
def nanDiv (a b : ℚ) : Option ℚ := if b = 0 then none else some (a / b)

/-- `np.clip(x, lo, hi)`, which is `min(max(x, lo), hi)` and propagates NaN. -/
def npClip (lo hi : ℚ) : Option ℚ → Option ℚ
  | none => none
  | some v => some (min hi (max lo v))

/-- The elementwise rescaling `1000 * (r - min) / (max - min)` shared by
`generate_scores` (src/main.py) and `predict_scores` (src/model.py). -/
def scoreFun (m M r : ℚ) : Option ℚ := nanDiv (1000 * (r - m)) (M - m)

/-- `generate_scores` from src/main.py, lines 163-171:
`scores = 1000 * (raw - raw.min()) / (raw.max() - raw.min())` followed by
`np.clip(scores, 0, 1000)`. On an empty array `raw.min()` raises, modelled as
`none` at the outer level. -/
def generate_scores : List ℚ → Option (List (Option ℚ))
  | [] => none
  | h :: t =>
      some ((h :: t).map fun r => npClip 0 1000 (scoreFun (minL h t) (maxL h t) r))

/-- `predict_scores` from src/model.py, lines 27-39: the same rescaling
without the final clip. -/
def predict_scores : List ℚ → Option (List (Option ℚ))
  | [] => none
  | h :: t =>
      some ((h :: t).map fun r => scoreFun (minL h t) (maxL h t) r)

/-- IEEE `<=` on possibly-NaN values: any comparison involving NaN is false. -/
def optLe : Option ℚ → Option ℚ → Prop
  | some a, some b => a ≤ b
  | _, _ => False

lemma minL_le_init (a : ℚ) (l : List ℚ) : minL a l ≤ a := by
  induction l generalizing a with
  | nil => simp [minL]
  | cons b t ih =>
      simp only [minL, List.foldl_cons] at *
      exact le_trans (ih (min a b)) (min_le_left a b)

lemma le_maxL_init (a : ℚ) (l : List ℚ) : a ≤ maxL a l := by
  induction l generalizing a with
  | nil => simp [maxL]
  | cons b t ih =>
      simp only [maxL, List.foldl_cons] at *
      exact le_trans (le_max_left a b) (ih (max a b))

lemma minL_le_mem (a x : ℚ) (l : List ℚ) (hx : x ∈ a :: l) : minL a l ≤ x := by
  induction l generalizing a with
  | nil =>
      rcases List.mem_cons.mp hx with rfl | h
      · simp [minL]
      · cases h
  | cons b t ih =>
      simp only [minL, List.foldl_cons]
      rcases List.mem_cons.mp hx with rfl | h
      · exact le_trans (minL_le_init (min x b) t) (min_le_left x b)
      · rcases List.mem_cons.mp h with rfl | h2
        · exact le_trans (minL_le_init (min a x) t) (min_le_right a x)
        · exact ih (min a b) (List.mem_cons_of_mem _ h2)

lemma le_maxL_mem (a x : ℚ) (l : List ℚ) (hx : x ∈ a :: l) : x ≤ maxL a l := by
  induction l generalizing a with
  | nil =>
      rcases List.mem_cons.mp hx with rfl | h
      · simp [maxL]
      · cases h
  | cons b t ih =>
      simp only [maxL, List.foldl_cons]
      rcases List.mem_cons.mp hx with rfl | h
      · exact le_trans (le_max_left x b) (le_maxL_init (max x b) t)
      · rcases List.mem_cons.mp h with rfl | h2
        · exact le_trans (le_max_right a x) (le_maxL_init (max a x) t)
        · exact ih (max a b) (List.mem_cons_of_mem _ h2)

lemma minL_le_maxL (a : ℚ) (l : List ℚ) : minL a l ≤ maxL a l :=
  le_trans (minL_le_init a l) (le_maxL_init a l)

lemma scoreFun_eq (m M r : ℚ) (hne : m ≠ M) :
    scoreFun m M r = some (1000 * (r - m) / (M - m)) := by
  have hd : M - m ≠ 0 := sub_ne_zero.mpr (Ne.symm hne)
  simp [scoreFun, nanDiv, hd]

lemma score_nonneg (m M r : ℚ) (hm : m ≤ r) (hlt : m < M) :
    0 ≤ 1000 * (r - m) / (M - m) := by
  apply div_nonneg _ (by linarith)
  linarith

lemma score_le (m M r : ℚ) (hM : r ≤ M) (hlt : m < M) :
    1000 * (r - m) / (M - m) ≤ 1000 := by
  rw [div_le_iff₀ (by linarith)]
  linarith

lemma npClip_of_bounds (lo hi v : ℚ) (h1 : lo ≤ v) (h2 : v ≤ hi) :
    npClip lo hi (some v) = some v := by
  simp [npClip, max_eq_right h1, min_eq_right h2]

lemma generate_scores_eq (h : ℚ) (t : List ℚ) (hne : minL h t ≠ maxL h t) :
    generate_scores (h :: t) =
      some ((h :: t).map fun r =>
        some (1000 * (r - minL h t) / (maxL h t - minL h t))) := by
  have hlt : minL h t < maxL h t := lt_of_le_of_ne (minL_le_maxL h t) hne
  simp only [generate_scores, Option.some.injEq]
  apply List.map_congr_left
  intro r hr
  have hm : minL h t ≤ r := minL_le_mem h r t hr
  have hM : r ≤ maxL h t := le_maxL_mem h r t hr
  rw [scoreFun_eq _ _ _ hne,
    npClip_of_bounds _ _ _ (score_nonneg _ _ _ hm hlt) (score_le _ _ _ hM hlt)]

lemma predict_scores_eq (h : ℚ) (t : List ℚ) (hne : minL h t ≠ maxL h t) :
    predict_scores (h :: t) =
      some ((h :: t).map fun r =>
        some (1000 * (r - minL h t) / (maxL h t - minL h t))) := by
  simp only [predict_scores, Option.some.injEq]
  apply List.map_congr_left
  intro r _
  rw [scoreFun_eq _ _ _ hne]

/-- Claim C1, counterexample: with two equal raw anomaly scores the pipeline
completes (numpy turns `0/0` into NaN with only a warning), yet the emitted
credit scores are NaN, which is not a value of the interval [0, 1000]. -/
theorem c1_counterexample :
    generate_scores [1, 1] = some [none, none] ∧
      ¬ (∀ s ∈ [(none : Option ℚ), none], ∃ q, s = some q ∧ 0 ≤ q ∧ q ≤ 1000) := by
  constructor
  · norm_num [generate_scores, scoreFun, nanDiv, npClip, minL, maxL]
  · intro hall
    rcases hall none (by simp) with ⟨q, hq, -⟩
    cases hq

/-- Claim C1, amended: whenever the raw anomaly scores are nonempty and not
all equal (`min ≠ max`), every credit score emitted by `generate_scores` is a
real value in [0, 1000]; when all raw scores are equal the emitted values are
NaN. -/
theorem c1_scores_bounded (h : ℚ) (t : List ℚ) (hne : minL h t ≠ maxL h t)
    (l : List (Option ℚ)) (hl : generate_scores (h :: t) = some l) :
    ∀ s ∈ l, ∃ q, s = some q ∧ 0 ≤ q ∧ q ≤ 1000 := by
  have hlt : minL h t < maxL h t := lt_of_le_of_ne (minL_le_maxL h t) hne
  rw [generate_scores_eq h t hne, Option.some.injEq] at hl
  subst hl
  intro s hs
  rcases List.mem_map.mp hs with ⟨r, hr, rfl⟩
  exact ⟨_, rfl,
    score_nonneg _ _ _ (minL_le_mem h r t hr) hlt,
    score_le _ _ _ (le_maxL_mem h r t hr) hlt⟩

/-- Witness for C1 at the raw scores `[0, 2]`. -/
theorem c1_witness :
    ∃ q, (some (0 : ℚ)) = some q ∧ 0 ≤ q ∧ q ≤ 1000 :=
  c1_scores_bounded 0 [2] (by norm_num [minL, maxL]) [some 0, some 1000]
    (by norm_num [generate_scores, scoreFun, nanDiv, npClip, minL, maxL])
    (some 0) (by simp)

/-- Claim C2: for a nonempty raw-score array with `min ≠ max`,
`generate_scores` applies exactly `r ↦ 1000 * (r - min) / (max - min)` to
every entry; an entry equal to the minimum is mapped to exactly 0 and an
entry equal to the maximum to exactly 1000. -/
theorem c2_linear_rescale (h : ℚ) (t : List ℚ) (hne : minL h t ≠ maxL h t) :
    generate_scores (h :: t) =
      some ((h :: t).map fun r =>
        some (1000 * (r - minL h t) / (maxL h t - minL h t))) ∧
    (∀ r ∈ h :: t, r = minL h t →
      1000 * (r - minL h t) / (maxL h t - minL h t) = 0) ∧
    (∀ r ∈ h :: t, r = maxL h t →
      1000 * (r - minL h t) / (maxL h t - minL h t) = 1000) := by
  have hd : maxL h t - minL h t ≠ 0 := sub_ne_zero.mpr (Ne.symm hne)
  refine ⟨generate_scores_eq h t hne, ?_, ?_⟩
  · rintro r - rfl
    simp
  · rintro r - rfl
    rw [mul_div_assoc, div_self hd, mul_one]

/-- Witness for C2 at the raw scores `[0, 2]`. -/
theorem c2_witness :
    generate_scores [0, 2] =
      some ([(0 : ℚ), 2].map fun r =>
        some (1000 * (r - minL 0 [2]) / (maxL 0 [2] - minL 0 [2]))) :=
  (c2_linear_rescale 0 [2] (by norm_num [minL, maxL])).1

/-- Claim C5, counterexample: on the all-equal raw-score array `[1, 1]` both
wallets have equal raw scores (so `raw 0 ≤ raw 1`), but both credit scores are
NaN and the IEEE comparison `NaN ≤ NaN` is false, so the emitted scores are
not ordered. -/
theorem c5_counterexample :
    generate_scores [1, 1] = some [none, none] ∧ (1 : ℚ) ≤ 1 ∧
      ¬ optLe (none : Option ℚ) none := by
  refine ⟨?_, le_refl 1, fun hco => hco⟩
  norm_num [generate_scores, scoreFun, nanDiv, npClip, minL, maxL]

/-- Claim C5, amended: on a nonempty raw-score array with `min ≠ max`,
`generate_scores` maps each raw value `r` to the clipped rescaling, and that
map is monotone: raw score `ri ≤ rj` implies credit score of `ri` ≤ credit
score of `rj`. -/
theorem c5_monotone (h : ℚ) (t : List ℚ) (hne : minL h t ≠ maxL h t)
    (ri rj : ℚ) (hi : ri ∈ h :: t) (hj : rj ∈ h :: t) (hle : ri ≤ rj) :
    generate_scores (h :: t) =
      some ((h :: t).map fun r =>
        npClip 0 1000 (scoreFun (minL h t) (maxL h t) r)) ∧
    optLe (npClip 0 1000 (scoreFun (minL h t) (maxL h t) ri))
      (npClip 0 1000 (scoreFun (minL h t) (maxL h t) rj)) := by
  have hlt : minL h t < maxL h t := lt_of_le_of_ne (minL_le_maxL h t) hne
  refine ⟨rfl, ?_⟩
  rw [scoreFun_eq _ _ _ hne, scoreFun_eq _ _ _ hne,
    npClip_of_bounds _ _ _ (score_nonneg _ _ _ (minL_le_mem h ri t hi) hlt)
      (score_le _ _ _ (le_maxL_mem h ri t hi) hlt),
    npClip_of_bounds _ _ _ (score_nonneg _ _ _ (minL_le_mem h rj t hj) hlt)
      (score_le _ _ _ (le_maxL_mem h rj t hj) hlt)]
  show 1000 * (ri - minL h t) / (maxL h t - minL h t) ≤
    1000 * (rj - minL h t) / (maxL h t - minL h t)
  apply div_le_div_of_nonneg_right ?_ (by linarith)
  linarith

/-- Witness for C5 at the raw scores `[0, 2]` with `ri = 0`, `rj = 2`. -/
theorem c5_witness :
    optLe (npClip 0 1000 (scoreFun (minL 0 [2]) (maxL 0 [2]) 0))
      (npClip 0 1000 (scoreFun (minL 0 [2]) (maxL 0 [2]) 2)) :=
  (c5_monotone 0 [2] (by norm_num [minL, maxL]) 0 2 (by simp) (by simp)
    (by norm_num)).2

/-- Claim C10: when the raw anomaly scores are not all equal, the
normalization of `generate_scores` (src/main.py, with the final
`np.clip(·, 0, 1000)`) and that of `predict_scores` (src/model.py, without
the clip) agree: the linear rescaling already lands in [0, 1000], so the clip
is the identity. -/
theorem c10_clip_identity (h : ℚ) (t : List ℚ) (hne : minL h t ≠ maxL h t) :
    generate_scores (h :: t) = predict_scores (h :: t) := by
  rw [generate_scores_eq h t hne, predict_scores_eq h t hne]

/-- Witness for C10 at the raw scores `[0, 2]`. -/
theorem c10_witness : generate_scores [0, 2] = predict_scores [0, 2] :=
  c10_clip_identity 0 [2] (by norm_num [minL, maxL])

/-- A row of the transactions DataFrame as consumed by
`calculate_wallet_features` in src/features.py: the `type` column, the
`block_timestamp` column (held in seconds since the epoch, the unit used by
`dt.total_seconds()`), and the `amount_usd` column. The identical
action-counting logic in src/main.py reads the `action`/`type` column the
same way. -/
structure FTx where
  type : String
  block_timestamp : ℚ
  amount_usd : ℚ

/-- ASCII lowercasing of one character (the transaction types in the data are
ASCII, where Python's `str.lower()` is exactly this map). -/
def lowerChar (c : Char) : Char :=
  if 65 ≤ c.toNat ∧ c.toNat ≤ 90 then Char.ofNat (c.toNat + 32) else c

/-- `s.lower()` for ASCII strings. -/
def strLower (s : String) : String := String.mk (s.data.map lowerChar)

/-- `pat` is a prefix of `s`, as a boolean on character lists. -/
def isPrefixList : List Char → List Char → Bool
  | [], _ => true
  | _ :: _, [] => false
  | a :: as, b :: bs => a == b && isPrefixList as bs

/-- `pat` occurs as a contiguous substring of `s`. -/
def containsSub (pat : List Char) : List Char → Bool
  | [] => pat.isEmpty
  | c :: rest => isPrefixList pat (c :: rest) || containsSub pat rest

/-- `series.str.lower().str.contains(pat)` for a plain (regex-free) pattern:
substring containment in the lowercased string. -/
def lowerContains (s pat : String) : Bool :=
  containsSub pat.data (strLower s).data

/-- The five action names iterated over in src/features.py line 12 and
src/main.py line 83. -/
def actionNames : List String :=
  ["deposit", "borrow", "repay", "redeem", "liquidation"]

/-- `wallet_transactions[col].str.lower().str.contains(action).sum()`:
the `{action}_count` feature (src/features.py line 13, src/main.py line 85).
Pandas sums the boolean mask, i.e. adds 1 per matching row. -/
def actionCount (action : String) (txs : List FTx) : ℕ :=
  (txs.map fun t => if lowerContains t.type action then 1 else 0).sum

/-- `total_deposit_value` (src/features.py lines 34-37): the sum of
`amount_usd` over the rows whose lowercased type equals `"deposit"` exactly
(the financial totals use `==`, unlike the counts). -/
def total_deposit_value (txs : List FTx) : ℚ :=
  ((txs.filter fun t => strLower t.type == "deposit").map
    (fun t => t.amount_usd)).sum

/-- `total_borrow_value` (src/features.py lines 35-38). -/
def total_borrow_value (txs : List FTx) : ℚ :=
  ((txs.filter fun t => strLower t.type == "borrow").map
    (fun t => t.amount_usd)).sum

/-- The `borrow_to_deposit_ratio` feature (src/features.py lines 40-43). -/
def borrow_to_deposit_ratio (txs : List FTx) : ℚ :=
  total_borrow_value txs / (total_deposit_value txs + 1 / 1000000)

/-- Claim C4, counterexample: the counts use substring containment, not
equality of the type. A single `redeemUnderlying` transaction (an actual Aave
V2 action name) has `redeem_count = 1` although no transaction's type is
`redeem`; and a single transaction of a type matching none of the five names
(here `swap`) is counted under none of them, so transactions are not counted
under exactly one action type. -/
theorem c4_counterexample :
    actionCount "redeem" [⟨"redeemUnderlying", 0, 0⟩] = 1 ∧
    (([⟨"redeemUnderlying", 0, 0⟩] : List FTx).filter
      (fun t => strLower t.type == "redeem")).length = 0 ∧
    (actionNames.map fun a => actionCount a [⟨"swap", 0, 0⟩]).sum = 0 := by
  refine ⟨?_, ?_, ?_⟩ <;> decide

/-- Claim C4, amended: `{action}_count` equals the number of the wallet's
transactions whose lowercased type contains the action name as a substring
(so a transaction may be counted under zero or several of the five types);
a transaction whose lowercased type is exactly one of the five action names
is counted under exactly that one, since none of the five names is a
substring of another. -/
theorem c4_count_contains :
    (∀ (action : String) (txs : List FTx),
      actionCount action txs =
        (txs.filter fun t => lowerContains t.type action).length) ∧
    (∀ a ∈ actionNames, ∀ t : FTx, strLower t.type = a →
      actionNames.filter (fun x => lowerContains t.type x) = [a]) := by
  constructor
  · intro action txs
    induction txs with
    | nil => rfl
    | cons t ts ih =>
        by_cases hc : lowerContains t.type action
        · simp [actionCount, List.filter_cons, hc] at ih ⊢
          omega
        · simp [actionCount, List.filter_cons, hc] at ih ⊢
          exact ih
  · intro a ha t ht
    simp only [lowerContains, ht]
    simp only [actionNames, List.mem_cons, List.not_mem_nil, or_false] at ha
    rcases ha with rfl | rfl | rfl | rfl | rfl <;> decide

/-- Witness for C4 on a single `Deposit` transaction. -/
theorem c4_witness :
    actionCount "deposit" [⟨"Deposit", 0, 5⟩] =
      (([⟨"Deposit", 0, 5⟩] : List FTx).filter
        (fun t => lowerContains t.type "deposit")).length ∧
    actionNames.filter
      (fun x => lowerContains (FTx.mk "Deposit" 0 5).type x) = ["deposit"] :=
  ⟨c4_count_contains.1 "deposit" [⟨"Deposit", 0, 5⟩],
   c4_count_contains.2 "deposit" (by decide) ⟨"Deposit", 0, 5⟩ (by decide)⟩

/-- Claim C7: with nonnegative `amount_usd` on every transaction, the
denominator `total_deposit_value + 1e-6` of ` borrow_to_deposit_ratio` is
strictly positive. -/
theorem c7_denominator_pos (txs : List FTx)
    (h : ∀ t ∈ txs, 0 ≤ t.amount_usd) :
    0 < total_deposit_value txs + 1 / 1000000 := by
  have h0 : 0 ≤ total_deposit_value txs := by
    apply List.sum_nonneg
    intro x hx
    rcases List.mem_map.mp hx with ⟨t, ht, rfl⟩
    exact h t (List.mem_of_mem_filter ht)
  have h1 : (0 : ℚ) < 1 / 1000000 := by norm_num
  linarith

/-- Witness for C7 on a single deposit of 5 USD. -/
theorem c7_witness :
    (∀ t ∈ ([⟨"deposit", 0, 5⟩] : List FTx), 0 ≤ t.amount_usd) ∧
      0 < total_deposit_value [⟨"deposit", 0, 5⟩] + 1 / 1000000 :=
  ⟨by intro t ht; simp at ht; subst ht; norm_num,
   c7_denominator_pos [⟨"deposit", 0, 5⟩]
     (by intro t ht; simp at ht; subst ht; norm_num)⟩

/-- `series.diff()` of pandas: NaN in the first slot, then each element minus
its predecessor. -/
def pdDiff : List ℚ → List (Option ℚ)
  | [] => []
  | a :: t => none :: List.zipWith (fun x y => some (x - y)) t (a :: t)

/-- `series.dropna()`. -/
def dropna (l : List (Option ℚ)) : List ℚ := l.filterMap id

/-- `series.mean()`: sum over length. -/
def meanQ (l : List ℚ) : ℚ := l.sum / l.length

/-- The wallet's `block_timestamp` column, in seconds (the unit produced by
`dt.total_seconds()`). -/
def walletTimes (txs : List FTx) : List ℚ := txs.map fun t => t.block_timestamp

/-- `pd.to_datetime(wallet_transactions['block_timestamp']).sort_values()`
(src/features.py line 16): the timestamps sorted ascending. -/
def sortedTimes (txs : List FTx) : List ℚ :=
  List.insertionSort (fun x y => x ≤ y) (walletTimes txs)

/-- `time_between_txs_mean` (src/features.py lines 25-27):
`timestamps_sorted.diff().dt.total_seconds().dropna().mean()` when the wallet
has more than one transaction, else the literal 0. -/
def time_between_txs_mean (txs : List FTx) : ℚ :=
  if 1 < txs.length then meanQ (dropna (pdDiff (sortedTimes txs))) else 0

/-- `time_between_txs_std` (src/features.py lines 26-30). The value of
pandas' sample standard deviation is an (irrational) square root, so the
`> 1` branch takes it as an abstract function argument; the claim only
constrains the `else` branch, which assigns the literal 0. -/
def time_between_txs_std (std : List ℚ → ℚ) (txs : List FTx) : ℚ :=
  if 1 < txs.length then std (dropna (pdDiff (sortedTimes txs))) else 0

lemma filterMap_zipWith_some (xs : List ℚ) :
    ∀ ys : List ℚ,
      List.filterMap id (List.zipWith (fun x y => some (x - y)) xs ys) =
        List.zipWith (fun x y => x - y) xs ys := by
  induction xs with
  | nil => intro ys; rfl
  | cons x xs ih =>
      intro ys
      cases ys with
      | nil => rfl
      | cons y ys => simp [List.zipWith, List.filterMap_cons, ih]

lemma dropna_pdDiff (l : List ℚ) :
    dropna (pdDiff l) = List.zipWith (fun x y => x - y) l.tail l := by
  cases l with
  | nil => rfl
  | cons a t =>
      simp only [pdDiff, dropna, List.filterMap_cons, List.tail_cons]
      exact filterMap_zipWith_some t (a :: t)

/-- Claim C8: for a wallet with at least two transactions,
`time_between_txs_mean` is the arithmetic mean of the differences between
consecutive timestamps of the ascending sort; for a wallet with exactly one
transaction, `time_between_txs_mean` and `time_between_txs_std` are both 0
(whatever pandas' std would compute on longer inputs). -/
theorem c8_time_gaps :
    (∀ txs : List FTx, 2 ≤ txs.length →
      time_between_txs_mean txs =
        meanQ (List.zipWith (fun x y => x - y)
          (sortedTimes txs).tail (sortedTimes txs))) ∧
    (∀ tx : FTx, ∀ f : List ℚ → ℚ,
      time_between_txs_mean [tx] = 0 ∧ time_between_txs_std f [tx] = 0) := by
  constructor
  · intro txs h2
    rw [time_between_txs_mean, if_pos (by omega), dropna_pdDiff]
  · intro tx f
    constructor <;> rfl

/-- Witness for C8: two transactions 20 seconds apart, and a singleton. -/
theorem c8_witness :
    (2 ≤ ([⟨"a", 30, 0⟩, ⟨"b", 10, 0⟩] : List FTx).length ∧
      time_between_txs_mean [⟨"a", 30, 0⟩, ⟨"b", 10, 0⟩] =
        meanQ (List.zipWith (fun x y => x - y)
          (sortedTimes [⟨"a", 30, 0⟩, ⟨"b", 10, 0⟩]).tail
          (sortedTimes [⟨"a", 30, 0⟩, ⟨"b", 10, 0⟩]))) ∧
    time_between_txs_mean [(⟨"a", 30, 0⟩ : FTx)] = 0 ∧
      time_between_txs_std (fun _ => 37) [(⟨"a", 30, 0⟩ : FTx)] = 0 :=
  ⟨⟨by norm_num, c8_time_gaps.1 _ (by norm_num)⟩,
   c8_time_gaps.2 ⟨"a", 30, 0⟩ (fun _ => 37)⟩

/-- A row of the transactions DataFrame as consumed by
`calculate_wallet_features` in src/main.py, reduced to what determines the
set of emitted feature keys: `amountParse` is the result of
`float(x['amount']) * float(x.get('assetPriceUSD', 1))` on the row's
`actionData` — `some` of the product when the extraction succeeds, `none`
when it raises (missing key, non-numeric string, non-dict cell). -/
structure MTx where
  amountParse : Option ℚ

/-- Which optional columns the input DataFrame has; `groupby` hands every
wallet a sub-DataFrame with the same columns, so these are DataFrame-level,
not wallet-level. `hasTimestamp` is any of `timestamp`/`block_timestamp`/
`createdAt`; `hasAction` any of `action`/`type` (src/main.py lines 66-80). -/
structure Cols where
  actionData : Bool
  hasTimestamp : Bool
  hasAction : Bool
  hasTxHash : Bool

/-- Whether the USD-amount extraction over a wallet's rows succeeds: the
`try` block in src/main.py lines 54-64 updates the features only when
`float(x['amount']) * float(...)` succeeds on every row; one bad row raises
and the `except` skips the whole update. -/
def usdOk (txs : List MTx) : Bool := txs.all fun t => t.amountParse.isSome

/-- The set (as an ordered list) of feature keys `calculate_wallet_features`
in src/main.py emits for one wallet: `total_txs` always; the three USD
aggregates only when the DataFrame has `actionData` and this wallet's amount
extraction succeeded; the temporal keys when a timestamp column exists; the
five action counts when an action column exists, plus `borrow_ratio` only
when `total_usd_volume` was set; `unique_tx_senders` when `txHash` exists. -/
def featureKeys (cols : Cols) (txs : List MTx) : List String :=
  ["total_txs"]
    ++ (if cols.actionData && usdOk txs then
          ["total_usd_volume", "avg_usd_amount", "max_usd_amount"]
        else [])
    ++ (if cols.hasTimestamp then
          ["first_activity", "last_activity", "tx_entropy"]
        else [])
    ++ (if cols.hasAction then
          ["deposit_count", "borrow_count", "repay_count", "redeem_count",
            "liquidation_count"]
            ++ (if cols.actionData && usdOk txs then ["borrow_ratio"] else [])
        else [])
    ++ (if cols.hasTxHash then ["unique_tx_senders"] else [])

/-- Claim C3, counterexample: on a DataFrame that has an `actionData` column,
a wallet whose single row parses to a USD amount gets the USD feature keys,
while a wallet whose single row fails to parse (the `except` branch) does
not: the emitted feature vectors do not have the same fixed set of fields. -/
theorem c3_counterexample :
    featureKeys ⟨true, false, false, false⟩ [⟨some 1⟩] ≠
      featureKeys ⟨true, false, false, false⟩ [⟨none⟩] := by
  decide

/-- Claim C3, amended: the set of feature keys emitted for a wallet depends
only on the DataFrame's columns and on whether that wallet's USD-amount
extraction succeeds; in particular any two wallets whose extraction outcome
agrees (e.g. all wallets of a DataFrame on which no extraction raises)
receive the same fixed set of feature fields, regardless of the length or
other content of their transaction histories. -/
theorem c3_fixed_width (cols : Cols) (txs txs2 : List MTx)
    (h : usdOk txs = usdOk txs2) :
    featureKeys cols txs = featureKeys cols txs2 := by
  simp only [featureKeys, h]

/-- Witness for C3: two wallets with different histories but successful
extraction on both. -/
theorem c3_witness :
    usdOk [⟨some 1⟩] = usdOk [⟨some 2⟩, ⟨some 3⟩] ∧
      featureKeys ⟨true, true, true, true⟩ [⟨some 1⟩] =
        featureKeys ⟨true, true, true, true⟩ [⟨some 2⟩, ⟨some 3⟩] :=
  ⟨by decide, c3_fixed_width ⟨true, true, true, true⟩ _ _ (by decide)⟩

/-- Modelled from the spec: the IsolationForest/StandardScaler internals are
external library code (the spec excludes "the anomaly-detection model itself
(a stock ensemble algorithm)" and "feature scaling (stock standardization)"
as commodity calls). Fitting is modelled as an arbitrary pure function of the
effective random seed and the training data, per sklearn's documented
behaviour that a fixed integer `random_state` makes fitting deterministic and
ambient randomness enters only when `random_state` is `None`. -/
def effectiveSeed (randomState : Option ℕ) (env : ℕ) : ℕ :=
  randomState.getD env

/-- `train_model` (src/main.py lines 136-161): fit on the features with the
hard-coded `random_state=42`, so the ambient randomness `env` of the run is
never consulted. -/
def train_model_fit {M : Type} (fit : ℕ → List (List ℚ) → M) (env : ℕ)
    (X : List (List ℚ)) : M :=
  fit (effectiveSeed (some 42) env) X

/-- One full run of `train_model` followed by `generate_scores`
(src/main.py lines 136-171): fit the model, take its decision-function values
on the features, and rescale them to credit scores. -/
def pipeline_scores {M : Type} (fit : ℕ → List (List ℚ) → M)
    (decision : M → List (List ℚ) → List ℚ) (env : ℕ) (X : List (List ℚ)) :
    Option (List (Option ℚ)) :=
  generate_scores (decision (train_model_fit fit env X) X)

/-- Claim C6: for a fixed features DataFrame, two runs of training followed
by scoring emit identical credit scores for every wallet, whatever ambient
randomness the two runs see, because `random_state` is the constant 42. -/
theorem c6_deterministic {M : Type} (fit : ℕ → List (List ℚ) → M)
    (decision : M → List (List ℚ) → List ℚ) (X : List (List ℚ))
    (env1 env2 : ℕ) :
    pipeline_scores fit decision env1 X = pipeline_scores fit decision env2 X :=
  rfl

/-- The observable content of the file at the given path for `load_data`:
`wholeParse` is the result of `json.load` on the whole file (`some` rows on
success, `none` on a `JSONDecodeError`), and `lines` holds the per-line
`json.loads` results for the fallback. -/
structure FileData (α : Type) where
  wholeParse : Option (List α)
  lines : List (Option α)

/-- The outcome of `load_data` (src/main.py lines 23-45): either the raised
`FileNotFoundError` or the returned DataFrame's rows. -/
inductive LoadResult (α : Type) where
  | fileNotFound : LoadResult α
  | frame : List α → LoadResult α

/-- `load_data` from src/main.py lines 23-45: raise `FileNotFoundError` when
the path does not exist (`file = none`); otherwise return the whole-file
parse, falling back on `JSONDecodeError` to parsing line by line, keeping
exactly the lines that parse. -/
def load_data {α : Type} (file : Option (FileData α)) : LoadResult α :=
  match file with
  | none => LoadResult.fileNotFound
  | some f =>
      match f.wholeParse with
      | some rows => LoadResult.frame rows
      | none => LoadResult.frame (f.lines.filterMap id)

/-- Claim C9: `load_data` raises `FileNotFoundError` exactly when the path
does not exist; when the file exists but whole-file parsing fails, it returns
(without raising) the DataFrame of exactly the lines that parse, skipping
every invalid line. -/
theorem c9_load_data {α : Type} (file : Option (FileData α)) :
    (load_data file = LoadResult.fileNotFound ↔ file = none) ∧
    (∀ f, file = some f → f.wholeParse = none →
      load_data file = LoadResult.frame (f.lines.filterMap id)) := by
  constructor
  · cases file with
    | none => simp [load_data]
    | some f =>
        cases hw : f.wholeParse <;> simp [load_data, hw]
  · rintro f rfl hw
    simp [load_data, hw]

/-- Witness for C9: a file whose whole-file parse fails and whose second line
is invalid. -/
theorem c9_witness :
    load_data (some (⟨none, [some 1, none, some 2]⟩ : FileData ℕ)) =
      LoadResult.frame ([some 1, none, some 2].filterMap id) :=
  (c9_load_data (some ⟨none, [some 1, none, some 2]⟩)).2
    ⟨none, [some 1, none, some 2]⟩ rfl rfl
